import Mathlib

/-!
A shallow embedding of the survey bot's conversation state machine
(`src/bot/handlers.py`, `src/bot/keyboards.py`, `src/bot/states.py`,
`src/survey/models.py`), together with theorems checking the
natural-language specification against it.

Database rows become Lean structures; Django querysets become explicit
list operations (`order_by('order').first()` is a stable minimum by the
`order` key); handlers become pure functions from their inputs and the
session state to the new state, the persisted responses, the next
conversation state, and the number of `move_to_next_question` calls the
step performed; Python exceptions (attribute access on `None`,
`objects.get` misses) become `Option`/`Except` failures.
-/

namespace SurveyBot

/-- Conversation states, from `bot/states.py` (`ConversationState`). -/
inductive ConversationState where
  | REGISTRATION_GENDER
  | REGISTRATION_AGE
  | REGISTRATION_OCCUPATION
  | REGISTRATION_COURSE
  | REGISTRATION_EXPERIENCE
  | MAIN_MENU
  | ANSWERING_QUESTION
  | WAITING_TEXT_ANSWER
  | WAITING_CHOICE_ANSWER
  | WAITING_VOICE_ANSWER
deriving DecidableEq

/-- Question types, from `survey/models.py` (`Question.QUESTION_TYPES`). -/
inductive QType where
  | text
  | choice
  | voice
deriving DecidableEq

/-- An answer option of a choice question (`survey/models.py`, `QuestionOption`). -/
structure QOption where
  text : String
  order : Nat
deriving DecidableEq

/-- A survey question (`survey/models.py`, `Question`), with its options inlined. -/
structure Question where
  text : String
  question_type : QType
  order : Nat
  is_required : Bool
  options : List QOption
deriving DecidableEq

/-- Session statuses (`survey/models.py`, `SurveySession.STATUS_CHOICES`). -/
inductive SessionStatus where
  | started
  | in_progress
  | completed
  | abandoned
deriving DecidableEq

/-- A survey session (`survey/models.py`, `SurveySession`); the survey foreign key
is carried as the survey's question list, timestamps as abstract `Nat` clocks. -/
structure SurveySession where
  survey : List Question
  status : SessionStatus
  current_question : Option Question
  started_at : Nat
  completed_at : Option Nat
deriving DecidableEq

/-- The single populated payload of a `Response` row
(`text_answer` / `selected_option` / `telegram_file_id` in `survey/models.py`). -/
inductive ResponsePayload where
  | text_answer (t : String)
  | selected_option (o : QOption)
  | telegram_file_id (fid : String)
deriving DecidableEq

/-- A persisted `Response` row for one question of the session. -/
structure Response where
  question : Question
  payload : ResponsePayload
deriving DecidableEq

/-- An inbound Telegram message: optional text and optional voice attachment
(`update.message.text`, `update.message.voice.file_id`). -/
structure Msg where
  text : Option String
  voice : Option String
deriving DecidableEq

/-- What one answer-handler invocation produces: the updated session, the updated
response table, the returned conversation state, and how many times the handler
called `move_to_next_question` (1 on the persist/skip paths, 0 on a re-prompt). -/
structure HandlerResult where
  session : SurveySession
  responses : List Response
  next_state : ConversationState
  advance_calls : Nat
deriving DecidableEq

/-- The skip button label (`'⏭ Пропустить'` in `bot/keyboards.py` / `bot/handlers.py`). -/
def SKIP_SENTINEL : String := "⏭ Пропустить"

/-- Stable minimum of a list by a `Nat` key: the semantics of Django's
`order_by(key).first()` on these querysets. -/
def firstBy {α : Type} (key : α → Nat) : List α → Option α
  | [] => none
  | x :: xs =>
    match firstBy key xs with
    | none => some x
    | some y => if key x ≤ key y then some x else some y

/-- `get_first_question` (`handlers.py`): `survey.questions.order_by('order').first()`. -/
def get_first_question (qs : List Question) : Option Question :=
  firstBy (fun q => q.order) qs

/-- `get_next_question` (`handlers.py`):
`survey.questions.filter(order__gt=current_order).order_by('order').first()`. -/
def get_next_question (qs : List Question) (current_order : Nat) : Option Question :=
  firstBy (fun q => q.order) (qs.filter (fun q => current_order < q.order))

/-- `find_option_by_text` (`handlers.py`): `question.options.filter(text=text).first()`,
ordered by the model's default `order` ordering. -/
def find_option_by_text (q : Question) (t : String) : Option QOption :=
  firstBy (fun o => o.order) (q.options.filter (fun o => o.text == t))

/-- Insert an option into a list sorted by `order` (helper for `get_question_options`). -/
def insertByOrder (o : QOption) : List QOption → List QOption
  | [] => [o]
  | x :: xs => if o.order ≤ x.order then o :: x :: xs else x :: insertByOrder o xs

/-- Sort options by `order` (helper for `get_question_options`). -/
def sortByOrder : List QOption → List QOption
  | [] => []
  | x :: xs => insertByOrder x (sortByOrder xs)

/-- `get_question_options` (`handlers.py`): `question.options.order_by('order')`. -/
def get_question_options (q : Question) : List QOption := sortByOrder q.options

/-- `get_gender_keyboard` (`bot/keyboards.py`). -/
def get_gender_keyboard : List (List String) := [["👨 Мужской", "👩 Женский"]]

/-- `get_skip_keyboard` (`bot/keyboards.py`). -/
def get_skip_keyboard : List (List String) := [[SKIP_SENTINEL]]

/-- `get_choice_keyboard` (`bot/keyboards.py`): one row per option plus a skip row. -/
def get_choice_keyboard (options : List QOption) : List (List String) :=
  options.map (fun o => [o.text]) ++ [[SKIP_SENTINEL]]

/-- The render descriptor `ask_question` produces: the conversation state it
returns, whether a skip affordance is shown, and the option labels offered. -/
structure Render where
  state : ConversationState
  skip_shown : Bool
  option_labels : List String
deriving DecidableEq

/-- `ask_question` (`handlers.py` 391-416): text/voice questions show the skip
keyboard exactly when the question is not required; choice questions show the
ordered option labels with a skip row always appended by `get_choice_keyboard`. -/
def ask_question (q : Question) : Render :=
  match q.question_type with
  | .text =>
    { state := .WAITING_TEXT_ANSWER, skip_shown := !q.is_required, option_labels := [] }
  | .choice =>
    { state := .WAITING_CHOICE_ANSWER, skip_shown := true,
      option_labels := (get_question_options q).map (fun o => o.text) }
  | .voice =>
    { state := .WAITING_VOICE_ANSWER, skip_shown := !q.is_required, option_labels := [] }

/-- `abandon_session` (`handlers.py` 95-99): sets only `status = 'abandoned'`. -/
def abandon_session (s : SurveySession) : SurveySession :=
  { s with status := .abandoned }

/-- `complete_session` (`handlers.py` 134-139): sets `status = 'completed'` and
`completed_at = now`; it does not touch `current_question`. -/
def complete_session (now : Nat) (s : SurveySession) : SurveySession :=
  { s with status := .completed, completed_at := some now }

/-- `move_to_next_question` (`handlers.py` 494-513): reads
`session.current_question.order` (crashes if the session has no current
question, modelled as `none`), then either advances `current_question` to the
next question and returns `ask_question`'s state, or completes the session and
returns the main menu state. -/
def move_to_next_question (now : Nat) (s : SurveySession) :
    Option (SurveySession × ConversationState) :=
  match s.current_question with
  | none => none
  | some q =>
    match get_next_question s.survey q.order with
    | some nq => some ({ s with current_question := some nq }, (ask_question nq).state)
    | none => some (complete_session now s, .MAIN_MENU)

/-- `handle_text_answer` (`handlers.py` 419-434). -/
def handle_text_answer (now : Nat) (input : String) (s : SurveySession)
    (resps : List Response) : Option HandlerResult :=
  match s.current_question with
  | none => none
  | some q =>
    if input == SKIP_SENTINEL && !q.is_required then
      (move_to_next_question now s).map (fun p => ⟨p.1, resps, p.2, 1⟩)
    else
      (move_to_next_question now s).map
        (fun p => ⟨p.1, resps ++ [⟨q, .text_answer input⟩], p.2, 1⟩)

/-- `handle_choice_answer` (`handlers.py` 437-463). -/
def handle_choice_answer (now : Nat) (input : String) (s : SurveySession)
    (resps : List Response) : Option HandlerResult :=
  match s.current_question with
  | none => none
  | some q =>
    if input == SKIP_SENTINEL && !q.is_required then
      (move_to_next_question now s).map (fun p => ⟨p.1, resps, p.2, 1⟩)
    else
      match find_option_by_text q input with
      | none => some ⟨s, resps, .WAITING_CHOICE_ANSWER, 0⟩
      | some o =>
        (move_to_next_question now s).map
          (fun p => ⟨p.1, resps ++ [⟨q, .selected_option o⟩], p.2, 1⟩)

/-- `handle_voice_answer` (`handlers.py` 466-491). -/
def handle_voice_answer (now : Nat) (m : Msg) (s : SurveySession)
    (resps : List Response) : Option HandlerResult :=
  match s.current_question with
  | none => none
  | some q =>
    match m.voice with
    | none =>
      if m.text == some SKIP_SENTINEL && !q.is_required then
        (move_to_next_question now s).map (fun p => ⟨p.1, resps, p.2, 1⟩)
      else
        some ⟨s, resps, .WAITING_VOICE_ANSWER, 0⟩
    | some fid =>
      (move_to_next_question now s).map
        (fun p => ⟨p.1, resps ++ [⟨q, .telegram_file_id fid⟩], p.2, 1⟩)

/-- One inbound event in an awaiting-answer conversation state: the
`ConversationHandler` dispatch (`setup_handlers`) from the state to the matching
answer handler; text-only states require a text payload (`filters.TEXT`). -/
def survey_step (now : Nat) (st : ConversationState) (m : Msg) (s : SurveySession)
    (resps : List Response) : Option HandlerResult :=
  match st with
  | .WAITING_TEXT_ANSWER => m.text.bind (fun t => handle_text_answer now t s resps)
  | .WAITING_CHOICE_ANSWER => m.text.bind (fun t => handle_choice_answer now t s resps)
  | .WAITING_VOICE_ANSWER => handle_voice_answer now m s resps
  | _ => none

/-- Run a list of inbound messages through `survey_step`, threading the session,
the response table, the conversation state, and the accumulated count of
`move_to_next_question` calls. -/
def runAnswers (now : Nat) : List Msg → ConversationState → SurveySession →
    List Response → Nat → Option HandlerResult
  | [], st, s, resps, adv => some ⟨s, resps, st, adv⟩
  | m :: ms, st, s, resps, adv =>
    match survey_step now st m s resps with
    | none => none
    | some r => runAnswers now ms r.next_state r.session r.responses (adv + r.advance_calls)

/-- `create_survey_session` (`handlers.py` 73-80): a fresh session with
`status='in_progress'` and no current question. -/
def create_survey_session (now : Nat) (survey : List Question) : SurveySession :=
  { survey := survey, status := .in_progress, current_question := none,
    started_at := now, completed_at := none }

/-- Which reply `start_survey` ends with. -/
inductive StartOutcome where
  | no_active_survey
  | empty_survey
  | first_question_asked
deriving DecidableEq

/-- What `start_survey` produces: the session it created (if any), the responses
it persisted (always none), the conversation state it returns, and its outcome. -/
structure StartResult where
  session : Option SurveySession
  responses : List Response
  next_state : ConversationState
  outcome : StartOutcome
deriving DecidableEq

/-- `start_survey` (`handlers.py` 346-388): no active survey reports
unavailability with no session; an active survey with no questions creates a
session, reports unavailability, and abandons the session; otherwise the first
question becomes current and is asked. -/
def start_survey (now : Nat) (active_survey : Option (List Question)) : StartResult :=
  match active_survey with
  | none => ⟨none, [], .MAIN_MENU, .no_active_survey⟩
  | some survey =>
    let session := create_survey_session now survey
    match get_first_question survey with
    | none => ⟨some (abandon_session session), [], .MAIN_MENU, .empty_survey⟩
    | some fq =>
      ⟨some { session with current_question := some fq }, [],
        (ask_question fq).state, .first_question_asked⟩

/-- The transport-level bot state: the per-conversation ephemeral context slot
`context.user_data['session_id']`, the session store keyed by id, and the
persisted response rows. -/
structure BotState where
  user_data_session_id : Option Nat
  sessions : List (Nat × SurveySession)
  responses : List Response
deriving DecidableEq

/-- `get_session` (`handlers.py` 102-105): `SurveySession.objects.get(id=...)`,
`none` when the row does not exist (a raised `DoesNotExist`). -/
def get_session : List (Nat × SurveySession) → Nat → Option SurveySession
  | [], _ => none
  | (k, v) :: t, id => if k == id then some v else get_session t id

/-- Write back a session row under its id (the `session.save()` effect). -/
def set_session : List (Nat × SurveySession) → Nat → SurveySession →
    List (Nat × SurveySession)
  | [], _, _ => []
  | (k, v) :: t, id, s =>
    if k == id then (k, s) :: set_session t id s
    else (k, v) :: set_session t id s

/-- `cancel` (`handlers.py` 591-603): if the context still holds a session id,
fetch that session and abandon it unconditionally; the context slot itself is
never cleared, and nothing else is touched. -/
def cancel (b : BotState) : Option (BotState × ConversationState) :=
  match b.user_data_session_id with
  | none => some (b, .MAIN_MENU)
  | some id =>
    match get_session b.sessions id with
    | none => none
    | some s =>
      some ({ b with sessions := set_session b.sessions id (abandon_session s) },
        .MAIN_MENU)

/-- One awaiting-answer event at the transport level: every answer handler first
fetches the session by the context's `session_id` (crashing when absent or
stale), runs the session-level step, and saves the results; none of them writes
`context.user_data`. -/
def bot_survey_step (now : Nat) (st : ConversationState) (m : Msg) (b : BotState) :
    Option (BotState × ConversationState) :=
  match b.user_data_session_id with
  | none => none
  | some id =>
    match get_session b.sessions id with
    | none => none
    | some s =>
      (survey_step now st m s b.responses).map
        (fun r => ({ b with sessions := set_session b.sessions id r.session,
                            responses := r.responses }, r.next_state))

/-- An anonymous respondent profile (`survey/models.py`, `Respondent`), minus the
derived `anonymous_id` key; `gender` and `occupation_type` hold the stored
choice strings. -/
structure Respondent where
  gender : Option String
  age : Option Int
  occupation_type : Option String
  university_course : Option Int
  work_experience_years : Option Int
  is_profile_complete : Bool
deriving DecidableEq

/-- A freshly created respondent (`get_or_create` with empty defaults). -/
def emptyRespondent : Respondent :=
  { gender := none, age := none, occupation_type := none,
    university_course := none, work_experience_years := none,
    is_profile_complete := false }

/-- What one registration handler invocation produces: the (possibly updated)
respondent, the conversation state it returns, and the reply text it sends. -/
structure RegResult where
  respondent : Respondent
  next_state : ConversationState
  message : String
deriving DecidableEq

/-- Does `pat` occur at the start of `l`? (helper for Python's `in`). -/
def leadsWith : List Char → List Char → Bool
  | [], _ => true
  | _ :: _, [] => false
  | p :: ps, c :: cs => p == c && leadsWith ps cs

/-- Does `pat` occur anywhere in `l`? (helper for Python's `in`). -/
def hasSubAux (pat : List Char) : List Char → Bool
  | [] => leadsWith pat []
  | l@(_ :: t) => leadsWith pat l || hasSubAux pat t

/-- Python's substring test `pat in hay`. -/
def strContains (hay pat : String) : Bool := hasSubAux pat.toList hay.toList

/-- `handle_gender` (`handlers.py` 201-221): Python's duck-typed
`'👨 Мужской' in text` / `'👩 Женский' in text` substring checks; a hit stores
the gender and moves on to asking the age, anything else re-prompts. -/
def handle_gender (text : String) (r : Respondent) : RegResult :=
  if strContains text "👨 Мужской" then
    ⟨{ r with gender := some "male" }, .REGISTRATION_AGE,
      "Укажите ваш возраст (полных лет):"⟩
  else if strContains text "👩 Женский" then
    ⟨{ r with gender := some "female" }, .REGISTRATION_AGE,
      "Укажите ваш возраст (полных лет):"⟩
  else
    ⟨r, .REGISTRATION_GENDER, "Пожалуйста, выберите пол, используя кнопки ниже:"⟩

/-- Value of an ASCII digit (helper for `pyParseInt`). -/
def digitVal (c : Char) : Option Nat :=
  if c.isDigit then some (c.toNat - '0'.toNat) else none

/-- Parse the remaining digits of a Python integer literal, allowing single
underscores between digits (helper for `pyParseInt`). -/
def parseDigitsRest : List Char → Nat → Option Nat
  | [], acc => some acc
  | c :: rest, acc =>
    if c = '_' then
      match rest with
      | [] => none
      | c2 :: rest2 =>
        match digitVal c2 with
        | some d => parseDigitsRest rest2 (acc * 10 + d)
        | none => none
    else
      match digitVal c with
      | some d => parseDigitsRest rest (acc * 10 + d)
      | none => none

/-- Parse a nonempty digit sequence (helper for `pyParseInt`). -/
def parseDigits : List Char → Option Nat
  | [] => none
  | c :: rest =>
    match digitVal c with
    | some d => parseDigitsRest rest d
    | none => none

/-- Is `c` ASCII whitespace, as stripped by Python's `int()`? -/
def isPyWs (c : Char) : Bool :=
  c.toNat = 32 || c.toNat = 9 || c.toNat = 10 ||
    c.toNat = 13 || c.toNat = 11 || c.toNat = 12

/-- Strip leading and trailing whitespace (helper for `pyParseInt`). -/
def stripWs (l : List Char) : List Char :=
  ((l.dropWhile isPyWs).reverse.dropWhile isPyWs).reverse

/-- Python's `int(str)` on ASCII input: optional surrounding whitespace, an
optional sign, then digits with optional single grouping underscores;
`none` is a raised `ValueError`. -/
def pyParseInt (s : String) : Option Int :=
  match stripWs s.toList with
  | '+' :: rest => (parseDigits rest).map (fun n => (n : Int))
  | '-' :: rest => (parseDigits rest).map (fun n => -(n : Int))
  | rest => (parseDigits rest).map (fun n => (n : Int))

/-- `handle_age` (`handlers.py` 224-248): non-integer input re-prompts with the
format message, an integer outside 16..100 re-prompts with the range message,
and an integer inside the range stores the age and asks for the occupation. -/
def handle_age (text : String) (r : Respondent) : RegResult :=
  match pyParseInt text with
  | none =>
    ⟨r, .REGISTRATION_AGE, "Пожалуйста, введите возраст числом (например, 25):"⟩
  | some age =>
    if age < 16 || age > 100 then
      ⟨r, .REGISTRATION_AGE,
        "Пожалуйста, укажите корректный возраст (от 16 до 100 лет):"⟩
    else
      ⟨{ r with age := some age }, .REGISTRATION_OCCUPATION,
        "Выберите ваш текущий статус:"⟩

/-- Truncate to a 32-bit word (machine arithmetic of the hash core). -/
def w32 (n : Nat) : Nat := n % 4294967296

/-- 32-bit modular addition. -/
def add32 (a b : Nat) : Nat := (a + b) % 4294967296

/-- 32-bit right rotation by `k` (for `k ≤ 32`). -/
def rotr32 (k n : Nat) : Nat := w32 ((n >>> k) ||| (n <<< (32 - k)))

/-- SHA-256 `Ch(x, y, z)`. -/
def shaCh (x y z : Nat) : Nat := (x &&& y) ^^^ ((x ^^^ 4294967295) &&& z)

/-- SHA-256 `Maj(x, y, z)`. -/
def shaMaj (x y z : Nat) : Nat := (x &&& y) ^^^ (x &&& z) ^^^ (y &&& z)

/-- SHA-256 `Σ₀`. -/
def bigSigma0 (x : Nat) : Nat := rotr32 2 x ^^^ rotr32 13 x ^^^ rotr32 22 x

/-- SHA-256 `Σ₁`. -/
def bigSigma1 (x : Nat) : Nat := rotr32 6 x ^^^ rotr32 11 x ^^^ rotr32 25 x

/-- SHA-256 `σ₀`. -/
def smallSigma0 (x : Nat) : Nat := rotr32 7 x ^^^ rotr32 18 x ^^^ (x >>> 3)

/-- SHA-256 `σ₁`. -/
def smallSigma1 (x : Nat) : Nat := rotr32 17 x ^^^ rotr32 19 x ^^^ (x >>> 10)

/-- The SHA-256 round constants. -/
def shaK : List Nat :=
  [1116352408, 1899447441, 3049323471, 3921009573, 961987163,
   1508970993, 2453635748, 2870763221, 3624381080, 310598401,
   607225278, 1426881987, 1925078388, 2162078206, 2614888103,
   3248222580, 3835390401, 4022224774, 264347078, 604807628,
   770255983, 1249150122, 1555081692, 1996064986, 2554220882,
   2821834349, 2952996808, 3210313671, 3336571891, 3584528711,
   113926993, 338241895, 666307205, 773529912, 1294757372,
   1396182291, 1695183700, 1986661051, 2177026350, 2456956037,
   2730485921, 2820302411, 3259730800, 3345764771, 3516065817,
   3600352804, 4094571909, 275423344, 430227734, 506948616,
   659060556, 883997877, 958139571, 1322822218, 1537002063,
   1747873779, 1955562222, 2024104815, 2227730452, 2361852424,
   2428436474, 2756734187, 3204031479, 3329325298]

/-- The eight 32-bit words of the running hash value. -/
structure Hash8 where
  a : Nat
  b : Nat
  c : Nat
  d : Nat
  e : Nat
  f : Nat
  g : Nat
  h : Nat
deriving DecidableEq

/-- The SHA-256 initial hash value. -/
def shaInit : Hash8 :=
  ⟨1779033703, 3144134277, 1013904242, 2773480762,
   1359893119, 2600822924, 528734635, 1541459225⟩

/-- Extend the 16-word chunk schedule by `n` more words. -/
def extendSchedule : Nat → List Nat → List Nat
  | 0, ws => ws
  | n + 1, ws =>
    let t := ws.length
    extendSchedule n (ws ++
      [add32 (add32 (smallSigma1 (ws.getD (t - 2) 0)) (ws.getD (t - 7) 0))
        (add32 (smallSigma0 (ws.getD (t - 15) 0)) (ws.getD (t - 16) 0))])

/-- The 64-word message schedule of one chunk. -/
def messageSchedule (chunkWords : List Nat) : List Nat :=
  extendSchedule 48 chunkWords

/-- One SHA-256 compression round with key word `k` and schedule word `w`. -/
def compressRound (k w : Nat) (st : Hash8) : Hash8 :=
  let t1 := add32 st.h (add32 (bigSigma1 st.e) (add32 (shaCh st.e st.f st.g) (add32 k w)))
  let t2 := add32 (bigSigma0 st.a) (shaMaj st.a st.b st.c)
  ⟨add32 t1 t2, st.a, st.b, st.c, add32 st.d t1, st.e, st.f, st.g⟩

/-- Fold the compression rounds over the key and schedule word lists. -/
def compressLoop : List Nat → List Nat → Hash8 → Hash8
  | k :: ks, w :: ws, st => compressLoop ks ws (compressRound k w st)
  | _, _, st => st

/-- Process one 64-byte chunk (given as 16 words) into the running hash. -/
def processChunk (st : Hash8) (chunkWords : List Nat) : Hash8 :=
  let r := compressLoop shaK (messageSchedule chunkWords) st
  ⟨add32 st.a r.a, add32 st.b r.b, add32 st.c r.c, add32 st.d r.d,
   add32 st.e r.e, add32 st.f r.f, add32 st.g r.g, add32 st.h r.h⟩

/-- Group a byte list into big-endian 32-bit words. -/
def bytesToWords : List Nat → List Nat
  | b0 :: b1 :: b2 :: b3 :: rest =>
    (((b0 * 256 + b1) * 256 + b2) * 256 + b3) :: bytesToWords rest
  | _ => []

/-- The 8-byte big-endian encoding of the message bit length (mod 2^64). -/
def lenBytes8 (n : Nat) : List Nat :=
  [(n % 18446744073709551616) >>> 56 % 256, (n >>> 48) % 256, (n >>> 40) % 256,
   (n >>> 32) % 256, (n >>> 24) % 256, (n >>> 16) % 256, (n >>> 8) % 256, n % 256]

/-- SHA-256 padding: a 0x80 byte, zeros to 56 mod 64, then the bit length. -/
def padMessage (msg : List Nat) : List Nat :=
  msg ++ [128] ++ List.replicate ((119 - msg.length % 64) % 64) 0 ++
    lenBytes8 (msg.length * 8)

/-- Split a byte list into 64-byte chunks. -/
def toChunks64 (l : List Nat) : List (List Nat) :=
  if h : l = [] then []
  else l.take 64 :: toChunks64 (l.drop 64)
termination_by l.length
decreasing_by
  have hp : 0 < l.length := List.length_pos.mpr h
  simp [List.length_drop]
  omega

/-- The 4-byte big-endian encoding of a 32-bit word. -/
def wordBytes (w : Nat) : List Nat :=
  [(w >>> 24) % 256, (w >>> 16) % 256, (w >>> 8) % 256, w % 256]

/-- SHA-256 of a byte list, as the 32-byte digest. -/
def sha256Bytes (msg : List Nat) : List Nat :=
  let st := (toChunks64 (padMessage msg)).foldl
    (fun st c => processChunk st (bytesToWords c)) shaInit
  wordBytes st.a ++ wordBytes st.b ++ wordBytes st.c ++ wordBytes st.d ++
    wordBytes st.e ++ wordBytes st.f ++ wordBytes st.g ++ wordBytes st.h

/-- The sixteen lowercase hexadecimal digits. -/
def hexChars : List Char := "0123456789abcdef".toList

/-- The lowercase hexadecimal digit of `n % 16`. -/
def hexDigitChar (n : Nat) : Char := hexChars.getD (n % 16) '0'

/-- The two lowercase hexadecimal digits of one byte. -/
def byteToHex (b : Nat) : List Char := [hexDigitChar (b / 16), hexDigitChar b]

/-- Python's `hexdigest()`: the lowercase hexadecimal string of a byte list. -/
def hexEncode (bs : List Nat) : String := String.mk ((bs.map byteToHex).join)

/-- The UTF-8 bytes of a string (Python's `.encode('utf-8')`). -/
def utf8Bytes (s : String) : List Nat := s.toUTF8.toList.map (fun b => b.toNat)

/-- `generate_anonymous_id` (`handlers.py` 17-41): raises when
`settings.ANONYMOUS_SALT` is unset or empty, else the hex SHA-256 digest of
`f"{salt}:{telegram_id}"` encoded as UTF-8. -/
def generate_anonymous_id (salt : Option String) (telegram_id : Int) :
    Except String String :=
  match salt with
  | none => .error "ANONYMOUS_SALT не установлен в settings!"
  | some sl =>
    if sl == "" then .error "ANONYMOUS_SALT не установлен в settings!"
    else .ok (hexEncode (sha256Bytes (utf8Bytes (sl ++ ":" ++ toString telegram_id))))

/-- Questions ordered by their `order` field. -/
def qOrderLT (a b : Question) : Prop := a.order < b.order

instance : DecidableRel qOrderLT :=
  fun a b => inferInstanceAs (Decidable (a.order < b.order))

theorem firstBy_mem {α : Type} (key : α → Nat) :
    ∀ {l : List α} {x : α}, firstBy key l = some x → x ∈ l := by
  intro l
  induction l with
  | nil => intro x h; simp [firstBy] at h
  | cons a t ih =>
    intro x h
    simp only [firstBy] at h
    cases ht : firstBy key t with
    | none => rw [ht] at h; simp at h; simp [h]
    | some y =>
      rw [ht] at h
      by_cases hk : key a ≤ key y
      · simp [hk] at h; simp [h]
      · simp [hk] at h
        subst h
        exact List.mem_cons_of_mem _ (ih ht)

theorem firstBy_eq_none {α : Type} (key : α → Nat) (l : List α) :
    firstBy key l = none ↔ l = [] := by
  cases l with
  | nil => simp [firstBy]
  | cons a t =>
    simp only [firstBy]
    cases firstBy key t with
    | none => simp
    | some y => by_cases hk : key a ≤ key y <;> simp [hk]

theorem firstBy_sorted {α : Type} (key : α → Nat) :
    ∀ {l : List α}, List.Pairwise (fun a b => key a < key b) l →
      firstBy key l = l.head? := by
  intro l
  induction l with
  | nil => intro _; simp [firstBy]
  | cons a t ih =>
    intro h
    rw [List.pairwise_cons] at h
    simp only [firstBy, ih h.2]
    cases t with
    | nil => simp
    | cons b t2 =>
      have hab : key a < key b := h.1 b (List.mem_cons_self b t2)
      simp [Nat.le_of_lt hab]

theorem get_next_question_gt {qs : List Question} {o : Nat} {q' : Question}
    (h : get_next_question qs o = some q') : o < q'.order := by
  have hm := firstBy_mem _ h
  rw [List.mem_filter] at hm
  exact of_decide_eq_true hm.2

theorem get_next_question_sorted (pre : List Question) (q : Question)
    (rest : List Question) (h : List.Pairwise qOrderLT (pre ++ q :: rest)) :
    get_next_question (pre ++ q :: rest) q.order = rest.head? := by
  rw [List.pairwise_append] at h
  obtain ⟨hpre, hqrest, hcross⟩ := h
  rw [List.pairwise_cons] at hqrest
  have hfilter : (pre ++ q :: rest).filter (fun r => decide (q.order < r.order)) = rest := by
    rw [List.filter_append]
    have h1 : pre.filter (fun r => decide (q.order < r.order)) = [] := by
      rw [List.filter_eq_nil]
      intro a ha
      have : a.order < q.order := hcross a ha q (List.mem_cons_self q rest)
      simp only [decide_eq_true_eq]
      omega
    have h2 : (q :: rest).filter (fun r => decide (q.order < r.order)) = rest := by
      rw [List.filter_cons, if_neg (by simp)]
      rw [List.filter_eq_self]
      intro a ha
      simpa using (hqrest.1 a ha : qOrderLT q a)
    rw [h1, h2, List.nil_append]
  rw [get_next_question, hfilter]
  exact firstBy_sorted _ hqrest.2

theorem find_option_some {q : Question} {t : String} {o : QOption}
    (h : find_option_by_text q t = some o) : o ∈ q.options ∧ o.text = t := by
  have hm := firstBy_mem _ h
  rw [List.mem_filter] at hm
  exact ⟨hm.1, by simpa using hm.2⟩

theorem find_option_none_iff (q : Question) (t : String) :
    find_option_by_text q t = none ↔ ∀ o ∈ q.options, o.text ≠ t := by
  rw [find_option_by_text, firstBy_eq_none, List.filter_eq_nil]
  constructor
  · intro h o ho
    have := h o ho
    simpa using this
  · intro h o ho
    simpa using h o ho

/-- What leaving an awaiting state legitimately means for the session: the
current question moved strictly forward in `order`, or the session completed. -/
def session_advanced (q : Question) (s' : SurveySession) : Prop :=
  (∃ q', s'.current_question = some q' ∧ q.order < q'.order) ∨
    s'.status = SessionStatus.completed

theorem move_advanced {now : Nat} {s : SurveySession} {q : Question}
    {p : SurveySession × ConversationState} (hc : s.current_question = some q)
    (h : move_to_next_question now s = some p) : session_advanced q p.1 := by
  simp only [move_to_next_question, hc] at h
  cases hn : get_next_question s.survey q.order with
  | none =>
    rw [hn] at h
    injection h with h2
    subst h2
    exact Or.inr rfl
  | some nq =>
    rw [hn] at h
    injection h with h2
    subst h2
    exact Or.inl ⟨nq, rfl, get_next_question_gt hn⟩

theorem move_spec_last (now : Nat) {s : SurveySession} {pre : List Question}
    {q : Question} (hs : s.survey = pre ++ [q])
    (hp : List.Pairwise qOrderLT (pre ++ [q]))
    (hc : s.current_question = some q) :
    move_to_next_question now s = some (complete_session now s, .MAIN_MENU) := by
  simp only [move_to_next_question, hc]
  rw [hs, get_next_question_sorted pre q [] hp]
  rfl

theorem move_spec_cons (now : Nat) {s : SurveySession} {pre : List Question}
    {q q2 : Question} {rest : List Question}
    (hs : s.survey = pre ++ q :: q2 :: rest)
    (hp : List.Pairwise qOrderLT (pre ++ q :: q2 :: rest))
    (hc : s.current_question = some q) :
    move_to_next_question now s =
      some ({ s with current_question := some q2 }, (ask_question q2).state) := by
  simp only [move_to_next_question, hc]
  rw [hs, get_next_question_sorted pre q (q2 :: rest) hp]
  rfl

/-- A message the current question's handler accepts without re-prompting:
for a text question any text; for a choice question the skip sentinel on a
non-required question or an exact option label; for a voice question a voice
attachment or the skip sentinel on a non-required question. -/
def validFor (q : Question) (m : Msg) : Bool :=
  match q.question_type with
  | .text => m.text.isSome
  | .choice =>
    match m.text with
    | none => false
    | some t =>
      (t == SKIP_SENTINEL && !q.is_required) || (find_option_by_text q t).isSome
  | .voice =>
    m.voice.isSome || (m.text == some SKIP_SENTINEL && !q.is_required)

/-- The `Response` rows a valid message persists for its question: none on a
legitimate skip, exactly one otherwise. -/
def payloadList (q : Question) (m : Msg) : List Response :=
  match q.question_type with
  | .text =>
    match m.text with
    | none => []
    | some t =>
      if t == SKIP_SENTINEL && !q.is_required then [] else [⟨q, .text_answer t⟩]
  | .choice =>
    match m.text with
    | none => []
    | some t =>
      if t == SKIP_SENTINEL && !q.is_required then []
      else
        match find_option_by_text q t with
        | some o => [⟨q, .selected_option o⟩]
        | none => []
  | .voice =>
    match m.voice with
    | none => []
    | some fid => [⟨q, .telegram_file_id fid⟩]

/-- Every message of the list is valid for the matching question, and the two
lists have the same length. -/
def allValid : List Question → List Msg → Bool
  | [], [] => true
  | q :: qs, m :: ms => validFor q m && allValid qs ms
  | _, _ => false

/-- The response rows a full valid answer sequence persists, in traversal order. -/
def expectedResponses : List Question → List Msg → List Response
  | q :: qs, m :: ms => payloadList q m ++ expectedResponses qs ms
  | _, _ => []

/-- How many questions of a full valid answer sequence were skipped. -/
def skipCount : List Question → List Msg → Nat
  | q :: qs, m :: ms => (1 - (payloadList q m).length) + skipCount qs ms
  | _, _ => 0

theorem payloadList_length_le (q : Question) (m : Msg) :
    (payloadList q m).length ≤ 1 := by
  obtain ⟨tx, vc⟩ := m
  obtain ⟨qtext, qty, qord, qreq, qops⟩ := q
  cases qty <;> cases tx <;> cases vc <;>
    simp only [payloadList] <;>
    (try split) <;>
    (try split) <;>
    simp

theorem allValid_length :
    ∀ {qs : List Question} {ms : List Msg}, allValid qs ms = true →
      ms.length = qs.length := by
  intro qs
  induction qs with
  | nil => intro ms h; cases ms with
    | nil => rfl
    | cons m t => simp [allValid] at h
  | cons q qt ih =>
    intro ms h
    cases ms with
    | nil => simp [allValid] at h
    | cons m mt =>
      rw [allValid, Bool.and_eq_true] at h
      simp [ih h.2]

theorem expected_add_skip :
    ∀ {qs : List Question} {ms : List Msg}, allValid qs ms = true →
      (expectedResponses qs ms).length + skipCount qs ms = qs.length := by
  intro qs
  induction qs with
  | nil => intro ms h; cases ms with
    | nil => simp [expectedResponses, skipCount]
    | cons m t => simp [allValid] at h
  | cons q qt ih =>
    intro ms h
    cases ms with
    | nil => simp [allValid] at h
    | cons m mt =>
      rw [allValid, Bool.and_eq_true] at h
      have hle := payloadList_length_le q m
      have := ih h.2
      simp only [expectedResponses, skipCount, List.length_append, List.length_cons]
      omega

theorem survey_step_valid {now : Nat} {m : Msg} {s : SurveySession}
    {resps : List Response} {q : Question} (hc : s.current_question = some q)
    (hv : validFor q m = true) :
    survey_step now (ask_question q).state m s resps =
      (move_to_next_question now s).map
        (fun p => ⟨p.1, resps ++ payloadList q m, p.2, 1⟩) := by
  obtain ⟨tx, vc⟩ := m
  obtain ⟨qtext, qty, qord, qreq, qops⟩ := q
  cases qty with
  | text =>
    cases tx with
    | none => simp [validFor] at hv
    | some t =>
      simp only [validFor, payloadList, ask_question, survey_step, Option.bind_some,
        handle_text_answer, hc, Option.some_bind]
      cases hb : (t == SKIP_SENTINEL && !qreq) with
      | true => simp [hb]
      | false => simp [hb]
  | choice =>
    cases tx with
    | none => simp [validFor] at hv
    | some t =>
      simp only [validFor] at hv
      simp only [validFor, payloadList, ask_question, survey_step, Option.bind_some,
        handle_choice_answer, hc, Option.some_bind]
      cases hb : (t == SKIP_SENTINEL && !qreq) with
      | true => simp [hb]
      | false =>
        rw [hb, Bool.false_or] at hv
        obtain ⟨o, ho⟩ := Option.isSome_iff_exists.mp hv
        simp [hb, ho]
  | voice =>
    simp only [validFor] at hv
    simp only [payloadList, ask_question, survey_step, handle_voice_answer, hc]
    cases vc with
    | some fid => simp
    | none =>
      simp only [Option.isSome_none, Bool.false_or] at hv
      simp [hv]


theorem runAnswers_completes (now : Nat) :
    ∀ (rest : List Question) (msgs : List Msg) (pre : List Question)
      (s : SurveySession) (acc : List Response) (adv : Nat) (q : Question),
    s.survey = pre ++ rest →
    List.Pairwise qOrderLT (pre ++ rest) →
    rest.head? = some q →
    s.current_question = some q →
    allValid rest msgs = true →
    ∃ s', runAnswers now msgs (ask_question q).state s acc adv =
        some ⟨s', acc ++ expectedResponses rest msgs, .MAIN_MENU, adv + msgs.length⟩ ∧
      s'.status = .completed ∧ s'.completed_at = some now ∧ s'.survey = s.survey := by
  intro rest
  induction rest with
  | nil => intro msgs pre s acc adv q _ _ hh; simp at hh
  | cons q1 rt ih =>
    intro msgs pre s acc adv q hs hp hh hc hv
    have hq : q = q1 := by simpa using hh.symm
    subst hq
    cases msgs with
    | nil => cases rt <;> simp [allValid] at hv
    | cons m ms =>
      rw [allValid, Bool.and_eq_true] at hv
      rw [runAnswers, survey_step_valid hc hv.1]
      cases rt with
      | nil =>
        cases ms with
        | cons m2 ms2 => simp [allValid] at hv
        | nil =>
          rw [move_spec_last now hs hp hc]
          refine ⟨complete_session now s, ?_, rfl, rfl, rfl⟩
          simp [runAnswers, expectedResponses]
      | cons q2 rt2 =>
        rw [move_spec_cons now hs hp hc]
        simp only [Option.map_some']
        have hs2 : ({ s with current_question := some q2 } : SurveySession).survey =
            (pre ++ [q]) ++ (q2 :: rt2) := by
          simp [hs]
        have hp2 : List.Pairwise qOrderLT ((pre ++ [q]) ++ (q2 :: rt2)) := by
          simpa using hp
        obtain ⟨s', hrun, hst, hca, hsv⟩ :=
          ih ms (pre ++ [q]) { s with current_question := some q2 }
            (acc ++ payloadList q m) (adv + 1) q2 hs2 hp2 rfl rfl hv.2
        refine ⟨s', ?_, hst, hca, by simpa [hs] using hsv⟩
        rw [hrun]
        simp only [expectedResponses, List.append_assoc, List.length_cons]
        congr 2
        omega

/-- A concrete required text question, for witness instantiation. -/
def qC1w : Question := ⟨"Как вам звук?", .text, 0, true, []⟩

/-- A concrete session awaiting `qC1w`, for witness instantiation. -/
def sC1w : SurveySession :=
  { survey := [qC1w], status := .in_progress, current_question := some qC1w,
    started_at := 0, completed_at := none }

/-- Claim C1: from every awaiting-answer state, each handler either persists a
Response row for the current question, records a skip (sentinel input on a
non-required question) and persists nothing, or leaves the session unchanged in
the same awaiting state at the same current question; abandonment (the cancel
fallback) sets the status to abandoned. -/
theorem C1_awaiting_invariant (now : Nat) (s : SurveySession) (resps : List Response)
    (q : Question) (hc : s.current_question = some q) :
    (∀ input r, handle_text_answer now input s resps = some r →
      (((∃ resp, r.responses = resps ++ [resp] ∧ resp.question = q) ∨
        (input = SKIP_SENTINEL ∧ q.is_required = false ∧ r.responses = resps)) ∧
        session_advanced q r.session)) ∧
    (∀ input r, handle_choice_answer now input s resps = some r →
      ((((∃ resp, r.responses = resps ++ [resp] ∧ resp.question = q) ∨
        (input = SKIP_SENTINEL ∧ q.is_required = false ∧ r.responses = resps)) ∧
        session_advanced q r.session) ∨
      (r.session = s ∧ r.responses = resps ∧ r.next_state = .WAITING_CHOICE_ANSWER))) ∧
    (∀ m r, handle_voice_answer now m s resps = some r →
      ((((∃ resp, r.responses = resps ++ [resp] ∧ resp.question = q) ∨
        (m.text = some SKIP_SENTINEL ∧ q.is_required = false ∧ r.responses = resps)) ∧
        session_advanced q r.session) ∨
      (r.session = s ∧ r.responses = resps ∧ r.next_state = .WAITING_VOICE_ANSWER))) ∧
    (abandon_session s).status = .abandoned := by
  refine ⟨?_, ?_, ?_, rfl⟩
  · intro input r h
    simp only [handle_text_answer, hc] at h
    by_cases hb : (input == SKIP_SENTINEL && !q.is_required) = true
    · rw [if_pos hb] at h
      obtain ⟨p, hp, hr⟩ := Option.map_eq_some'.mp h
      subst hr
      rw [Bool.and_eq_true, beq_iff_eq, Bool.not_eq_true'] at hb
      exact ⟨Or.inr ⟨hb.1, hb.2, rfl⟩, move_advanced hc hp⟩
    · rw [if_neg hb] at h
      obtain ⟨p, hp, hr⟩ := Option.map_eq_some'.mp h
      subst hr
      exact ⟨Or.inl ⟨⟨q, .text_answer input⟩, rfl, rfl⟩, move_advanced hc hp⟩
  · intro input r h
    simp only [handle_choice_answer, hc] at h
    by_cases hb : (input == SKIP_SENTINEL && !q.is_required) = true
    · rw [if_pos hb] at h
      obtain ⟨p, hp, hr⟩ := Option.map_eq_some'.mp h
      subst hr
      rw [Bool.and_eq_true, beq_iff_eq, Bool.not_eq_true'] at hb
      exact Or.inl ⟨Or.inr ⟨hb.1, hb.2, rfl⟩, move_advanced hc hp⟩
    · rw [if_neg hb] at h
      cases ho : find_option_by_text q input with
      | none =>
        rw [ho] at h
        injection h with h2
        subst h2
        exact Or.inr ⟨rfl, rfl, rfl⟩
      | some o =>
        rw [ho] at h
        obtain ⟨p, hp, hr⟩ := Option.map_eq_some'.mp h
        subst hr
        exact Or.inl ⟨Or.inl ⟨⟨q, .selected_option o⟩, rfl, rfl⟩, move_advanced hc hp⟩
  · intro m r h
    simp only [handle_voice_answer, hc] at h
    cases hvo : m.voice with
    | some fid =>
      rw [hvo] at h
      obtain ⟨p, hp, hr⟩ := Option.map_eq_some'.mp h
      subst hr
      exact Or.inl ⟨Or.inl ⟨⟨q, .telegram_file_id fid⟩, rfl, rfl⟩, move_advanced hc hp⟩
    | none =>
      rw [hvo] at h
      by_cases hb : (m.text == some SKIP_SENTINEL && !q.is_required) = true
      · rw [if_pos hb] at h
        obtain ⟨p, hp, hr⟩ := Option.map_eq_some'.mp h
        subst hr
        rw [Bool.and_eq_true, beq_iff_eq, Bool.not_eq_true'] at hb
        exact Or.inl ⟨Or.inr ⟨hb.1, hb.2, rfl⟩, move_advanced hc hp⟩
      · rw [if_neg hb] at h
        injection h with h2
        subst h2
        exact Or.inr ⟨rfl, rfl, rfl⟩

/-- Witness for C1 at a concrete awaiting session. -/
theorem C1_awaiting_invariant_witness :
    sC1w.current_question = some qC1w ∧ (abandon_session sC1w).status = .abandoned :=
  ⟨rfl, (C1_awaiting_invariant 0 sC1w [] qC1w rfl).2.2.2⟩

/-- A concrete question that is the last of its survey, for C3. -/
def qC3 : Question := ⟨"Последний вопрос", .text, 0, true, []⟩

/-- A concrete session sitting at `qC3`, for C3. -/
def sC3 : SurveySession :=
  { survey := [qC3], status := .in_progress, current_question := some qC3,
    started_at := 0, completed_at := none }

/-- Counterexample to claim C3 as stated: completing the last question sets the
status and the completion time, but `current_question` is NOT cleared to null —
it still points at the last question. -/
theorem C3_counterexample :
    move_to_next_question 5 sC3 =
      some ({ sC3 with status := .completed, completed_at := some 5 }, .MAIN_MENU) ∧
    ({ sC3 with status := .completed, completed_at := some 5 }).current_question =
      some qC3 ∧
    some qC3 ≠ (none : Option Question) := by
  refine ⟨by decide, rfl, by decide⟩

/-- Claim C3 (amended): when no question of strictly greater order exists, the
advance step sets `status = completed` and `completed_at = now`, and leaves
`current_question` unchanged (still the last question; it is not cleared). -/
theorem C3_complete_on_last (now : Nat) (s : SurveySession) (q : Question)
    (hc : s.current_question = some q)
    (hn : get_next_question s.survey q.order = none) :
    move_to_next_question now s =
      some ({ s with status := .completed, completed_at := some now }, .MAIN_MENU) ∧
    ({ s with status := .completed, completed_at := some now }).current_question =
      s.current_question := by
  constructor
  · simp only [move_to_next_question, hc, hn]
    simp [complete_session, hc]
  · rfl

/-- Witness for the amended C3 at a concrete last-question session. -/
theorem C3_complete_on_last_witness :
    sC3.current_question = some qC3 ∧
    get_next_question sC3.survey qC3.order = none ∧
    move_to_next_question 7 sC3 =
      some ({ sC3 with status := .completed, completed_at := some 7 }, .MAIN_MENU) :=
  ⟨rfl, by decide, (C3_complete_on_last 7 sC3 qC3 rfl (by decide)).1⟩

/-- Claim C4: on a text question, the skip sentinel on a non-required question
persists nothing and advances; any other input — including the skip sentinel on
a required question — is persisted verbatim as `text_answer` and advances; the
skip affordance is rendered exactly when the question is not required. -/
theorem C4_text_question (now : Nat) (input : String) (s : SurveySession)
    (resps : List Response) (q : Question) (hc : s.current_question = some q)
    (hqt : q.question_type = .text) :
    ((input = SKIP_SENTINEL ∧ q.is_required = false) →
      handle_text_answer now input s resps =
        (move_to_next_question now s).map (fun p => ⟨p.1, resps, p.2, 1⟩)) ∧
    (¬(input = SKIP_SENTINEL ∧ q.is_required = false) →
      handle_text_answer now input s resps =
        (move_to_next_question now s).map
          (fun p => ⟨p.1, resps ++ [⟨q, .text_answer input⟩], p.2, 1⟩)) ∧
    ((input = SKIP_SENTINEL ∧ q.is_required = true) →
      handle_text_answer now input s resps =
        (move_to_next_question now s).map
          (fun p => ⟨p.1, resps ++ [⟨q, .text_answer input⟩], p.2, 1⟩)) ∧
    (∀ r, handle_text_answer now input s resps = some r →
      session_advanced q r.session) ∧
    (ask_question q).skip_shown = !q.is_required := by
  have hneg : ∀ hn : ¬(input = SKIP_SENTINEL ∧ q.is_required = false),
      handle_text_answer now input s resps =
        (move_to_next_question now s).map
          (fun p => ⟨p.1, resps ++ [⟨q, .text_answer input⟩], p.2, 1⟩) := by
    intro hn
    simp only [handle_text_answer, hc]
    rw [if_neg]
    intro hcontra
    rw [Bool.and_eq_true, beq_iff_eq, Bool.not_eq_true'] at hcontra
    exact hn hcontra
  refine ⟨?_, hneg, ?_, ?_, ?_⟩
  · intro hsk
    simp only [handle_text_answer, hc]
    rw [if_pos]
    rw [Bool.and_eq_true, beq_iff_eq, Bool.not_eq_true']
    exact hsk
  · intro hsk
    apply hneg
    intro hcontra
    rw [hsk.2] at hcontra
    exact absurd hcontra.2 (by simp)
  · intro r h
    simp only [handle_text_answer, hc] at h
    by_cases hb : (input == SKIP_SENTINEL && !q.is_required) = true
    · rw [if_pos hb] at h
      obtain ⟨p, hp, hr⟩ := Option.map_eq_some'.mp h
      subst hr
      exact move_advanced hc hp
    · rw [if_neg hb] at h
      obtain ⟨p, hp, hr⟩ := Option.map_eq_some'.mp h
      subst hr
      exact move_advanced hc hp
  · rw [ask_question, hqt]

/-- Witness for C4 at a concrete required text question: the skip sentinel is
persisted verbatim as an ordinary text answer. -/
theorem C4_text_question_witness :
    handle_text_answer 0 SKIP_SENTINEL sC1w [] =
      (move_to_next_question 0 sC1w).map
        (fun p => ⟨p.1, [] ++ [⟨qC1w, .text_answer SKIP_SENTINEL⟩], p.2, 1⟩) :=
  (C4_text_question 0 SKIP_SENTINEL sC1w [] qC1w rfl rfl).2.2.1 ⟨rfl, rfl⟩

/-- A concrete non-required choice question with one option, for C5. -/
def qC5 : Question := ⟨"Выберите вариант", .choice, 0, false, [⟨"Да", 0⟩]⟩

/-- A concrete session sitting at `qC5`, for C5. -/
def sC5 : SurveySession :=
  { survey := [qC5], status := .in_progress, current_question := some qC5,
    started_at := 0, completed_at := none }

/-- A concrete required choice question, for the C5 witness. -/
def qC5w : Question := ⟨"Выберите вариант", .choice, 0, true, [⟨"Да", 0⟩, ⟨"Нет", 1⟩]⟩

/-- A concrete session sitting at `qC5w`, for the C5 witness. -/
def sC5w : SurveySession :=
  { survey := [qC5w], status := .in_progress, current_question := some qC5w,
    started_at := 0, completed_at := none }

/-- Counterexample to claim C5 as stated: on a non-required choice question the
skip sentinel differs from every option label, yet the handler does not
re-prompt — it records a skip and advances (here: completes). -/
theorem C5_counterexample :
    SKIP_SENTINEL ≠ "Да" ∧
    handle_choice_answer 7 SKIP_SENTINEL sC5 [] =
      some ⟨{ sC5 with status := .completed, completed_at := some 7 }, [],
        .MAIN_MENU, 1⟩ ∧
    ConversationState.MAIN_MENU ≠ ConversationState.WAITING_CHOICE_ANSWER := by
  refine ⟨by decide, by decide, by decide⟩

/-- Claim C5 (amended): unless the input is the skip sentinel on a non-required
question (which skips and advances), the input is resolved by exact text match
only: on no match the handler re-prompts in the same state at the same question
persisting nothing; on a match it persists the matched option and advances. -/
theorem C5_choice_exact_match (now : Nat) (input : String) (s : SurveySession)
    (resps : List Response) (q : Question) (hc : s.current_question = some q) :
    ((input = SKIP_SENTINEL ∧ q.is_required = false) →
      handle_choice_answer now input s resps =
        (move_to_next_question now s).map (fun p => ⟨p.1, resps, p.2, 1⟩)) ∧
    (¬(input = SKIP_SENTINEL ∧ q.is_required = false) →
      (find_option_by_text q input = none →
        handle_choice_answer now input s resps =
          some ⟨s, resps, .WAITING_CHOICE_ANSWER, 0⟩) ∧
      (∀ o, find_option_by_text q input = some o →
        handle_choice_answer now input s resps =
          (move_to_next_question now s).map
            (fun p => ⟨p.1, resps ++ [⟨q, .selected_option o⟩], p.2, 1⟩))) ∧
    (∀ o, find_option_by_text q input = some o → o ∈ q.options ∧ o.text = input) ∧
    (find_option_by_text q input = none ↔ ∀ o ∈ q.options, o.text ≠ input) := by
  refine ⟨?_, ?_, fun o ho => find_option_some ho, find_option_none_iff q input⟩
  · intro hsk
    simp only [handle_choice_answer, hc]
    rw [if_pos]
    rw [Bool.and_eq_true, beq_iff_eq, Bool.not_eq_true']
    exact hsk
  · intro hn
    have hb : ¬((input == SKIP_SENTINEL && !q.is_required) = true) := by
      rw [Bool.and_eq_true, beq_iff_eq, Bool.not_eq_true']
      exact hn
    constructor
    · intro hno
      simp only [handle_choice_answer, hc]
      rw [if_neg hb, hno]
    · intro o ho
      simp only [handle_choice_answer, hc]
      rw [if_neg hb, ho]

/-- Witness for the amended C5: an input differing only in case from the option
labels re-prompts in the same state at the same question and persists nothing. -/
theorem C5_choice_exact_match_witness :
    handle_choice_answer 0 "да" sC5w [] =
      some ⟨sC5w, [], .WAITING_CHOICE_ANSWER, 0⟩ :=
  ((C5_choice_exact_match 0 "да" sC5w [] qC5w rfl).2.1 (by decide)).1 (by decide)

/-- Claim C6: starting a survey with zero questions does not throw: it reports
the unavailability outcome, abandons the session it created, and persists no
Response rows; with no active survey it reports unavailability and creates no
session at all. -/
theorem C6_empty_catalog (now : Nat) :
    start_survey now (some []) =
      ⟨some { survey := [], status := .abandoned, current_question := none,
              started_at := now, completed_at := none }, [], .MAIN_MENU,
        .empty_survey⟩ ∧
    ((start_survey now (some [])).session.map (fun s => s.status) =
      some .abandoned) ∧
    start_survey now none = ⟨none, [], .MAIN_MENU, .no_active_survey⟩ := by
  refine ⟨rfl, rfl, rfl⟩

/-- Claim C2: for a survey whose questions are strictly ascending by order, a
full sequence of valid answers drives the session from `start_survey` through
exactly one advance per question, ending completed with exactly the
non-skipped responses persisted in traversal order. -/
theorem C2_full_traversal (now : Nat) (qs : List Question) (msgs : List Msg)
    (hsorted : List.Pairwise qOrderLT qs) (hne : qs ≠ [])
    (hvalid : allValid qs msgs = true) :
    ∃ q0 s0 s', qs.head? = some q0 ∧
      start_survey now (some qs) =
        ⟨some s0, [], (ask_question q0).state, .first_question_asked⟩ ∧
      s0.current_question = some q0 ∧ s0.survey = qs ∧
      runAnswers now msgs (ask_question q0).state s0 [] 0 =
        some ⟨s', expectedResponses qs msgs, .MAIN_MENU, qs.length⟩ ∧
      s'.status = .completed ∧ s'.completed_at = some now ∧
      msgs.length = qs.length ∧
      (expectedResponses qs msgs).length + skipCount qs msgs = qs.length := by
  obtain ⟨q0, hq0⟩ : ∃ q0, qs.head? = some q0 := by
    cases qs with
    | nil => exact absurd rfl hne
    | cons a t => exact ⟨a, rfl⟩
  have hfirst : get_first_question qs = some q0 := by
    rw [get_first_question, firstBy_sorted _ hsorted, hq0]
  have hlen := allValid_length hvalid
  obtain ⟨s', hrun, hst, hca, _⟩ :=
    runAnswers_completes now qs msgs []
      (SurveySession.mk qs .in_progress (some q0) now none)
      [] 0 q0 rfl (by simpa using hsorted) hq0 rfl hvalid
  refine ⟨q0, SurveySession.mk qs .in_progress (some q0) now none, s',
    hq0, ?_, rfl, rfl, ?_, hst, hca, hlen, expected_add_skip hvalid⟩
  · simp only [start_survey, create_survey_session, hfirst]
  · rw [hrun]
    simp [hlen]

/-- A concrete two-question survey for the C2 witness: a non-required text
question followed by a required choice question. -/
def qsC2w : List Question :=
  [⟨"Опишите звук", .text, 1, false, []⟩,
   ⟨"Нравится?", .choice, 3, true, [⟨"Да", 0⟩, ⟨"Нет", 1⟩]⟩]

/-- The C2 witness answers: a legitimate skip, then an exact option label. -/
def msgsC2w : List Msg := [⟨some SKIP_SENTINEL, none⟩, ⟨some "Нет", none⟩]

/-- Witness for C2 on a concrete two-question survey with one skipped optional
question. -/
theorem C2_full_traversal_witness :
    ∃ q0 s0 s', qsC2w.head? = some q0 ∧
      start_survey 4 (some qsC2w) =
        ⟨some s0, [], (ask_question q0).state, .first_question_asked⟩ ∧
      s0.current_question = some q0 ∧ s0.survey = qsC2w ∧
      runAnswers 4 msgsC2w (ask_question q0).state s0 [] 0 =
        some ⟨s', expectedResponses qsC2w msgsC2w, .MAIN_MENU, qsC2w.length⟩ ∧
      s'.status = .completed ∧ s'.completed_at = some 4 ∧
      msgsC2w.length = qsC2w.length ∧
      (expectedResponses qsC2w msgsC2w).length + skipCount qsC2w msgsC2w =
        qsC2w.length :=
  C2_full_traversal 4 qsC2w msgsC2w (by decide) (by decide) (by decide)

theorem sha256Bytes_length (msg : List Nat) : (sha256Bytes msg).length = 32 := by
  simp [sha256Bytes, wordBytes]

theorem hexJoin_length (bs : List Nat) :
    ((bs.map byteToHex).join).length = 2 * bs.length := by
  induction bs with
  | nil => simp
  | cons b t ih =>
    simp only [List.map_cons, List.join_cons, List.length_append, ih, byteToHex,
      List.length_cons, List.length_nil]
    omega

theorem hexDigitChar_mem (n : Nat) : hexDigitChar n ∈ hexChars := by
  have h : n % 16 < hexChars.length := by
    have h2 : n % 16 < 16 := Nat.mod_lt _ (by norm_num)
    simpa [hexChars] using h2
  rw [hexDigitChar, List.getD_eq_getElem?_getD, List.getElem?_eq_getElem h]
  exact List.getElem_mem h

theorem hexJoin_mem (bs : List Nat) :
    ∀ c ∈ (bs.map byteToHex).join, c ∈ hexChars := by
  induction bs with
  | nil => simp
  | cons b t ih =>
    intro c hcm
    simp only [List.map_cons, List.join_cons, List.mem_append] at hcm
    rcases hcm with hcm | hcm
    · simp only [byteToHex, List.mem_cons, List.not_mem_nil, or_false] at hcm
      rcases hcm with h | h <;> (subst h; exact hexDigitChar_mem _)
    · exact ih c hcm

theorem mk_length (l : List Char) : (String.mk l).length = l.length := rfl

/-- Claim C7: with a configured salt, `generate_anonymous_id` is the lowercase
64-character hexadecimal SHA-256 digest of `salt ++ ":" ++ telegram_id`, it is
deterministic, and with no salt configured (absent or empty) it fails. -/
theorem C7_anonymize (salt : String) (telegram_id : Int) (h : salt ≠ "") :
    generate_anonymous_id (some salt) telegram_id =
      .ok (hexEncode (sha256Bytes (utf8Bytes (salt ++ ":" ++ toString telegram_id)))) ∧
    (∀ out, generate_anonymous_id (some salt) telegram_id = Except.ok out →
      out.length = 64 ∧ ∀ c ∈ out.data, c ∈ hexChars) ∧
    generate_anonymous_id (some salt) telegram_id =
      generate_anonymous_id (some salt) telegram_id ∧
    generate_anonymous_id none telegram_id =
      .error "ANONYMOUS_SALT не установлен в settings!" ∧
    generate_anonymous_id (some "") telegram_id =
      .error "ANONYMOUS_SALT не установлен в settings!" := by
  have hok : generate_anonymous_id (some salt) telegram_id =
      .ok (hexEncode (sha256Bytes (utf8Bytes (salt ++ ":" ++ toString telegram_id)))) := by
    rw [generate_anonymous_id, if_neg]
    rw [beq_iff_eq]
    exact h
  refine ⟨hok, ?_, rfl, rfl, rfl⟩
  intro out hout
  rw [hok] at hout
  injection hout with hout
  subst hout
  constructor
  · rw [hexEncode, mk_length, hexJoin_length, sha256Bytes_length]
  · exact hexJoin_mem _

/-- Witness for C7 at a concrete salt and id. -/
theorem C7_anonymize_witness :
    ("соль" : String) ≠ "" ∧
    generate_anonymous_id (some "соль") 42 =
      .ok (hexEncode (sha256Bytes (utf8Bytes ("соль" ++ ":" ++ toString (42 : Int))))) :=
  ⟨by decide, (C7_anonymize "соль" 42 (by decide)).1⟩

/-- Claim C8: in the awaiting-age state, non-integer input re-prompts in the
same state with the format message, an integer outside 16..100 re-prompts with
the distinct range message (profile untouched in both cases), and an integer
inside the range sets the age and moves to the occupation question. -/
theorem C8_age_validation (t : String) (r : Respondent) :
    (pyParseInt t = none →
      handle_age t r =
        ⟨r, .REGISTRATION_AGE, "Пожалуйста, введите возраст числом (например, 25):"⟩) ∧
    (∀ a, pyParseInt t = some a → (a < 16 ∨ 100 < a) →
      handle_age t r =
        ⟨r, .REGISTRATION_AGE,
          "Пожалуйста, укажите корректный возраст (от 16 до 100 лет):"⟩) ∧
    ("Пожалуйста, введите возраст числом (например, 25):" ≠
      "Пожалуйста, укажите корректный возраст (от 16 до 100 лет):") ∧
    (∀ a, pyParseInt t = some a → 16 ≤ a → a ≤ 100 →
      handle_age t r =
        ⟨{ r with age := some a }, .REGISTRATION_OCCUPATION,
          "Выберите ваш текущий статус:"⟩) := by
  refine ⟨?_, ?_, by decide, ?_⟩
  · intro hn
    rw [handle_age, hn]
  · intro a ha hrange
    rw [handle_age, ha]
    simp only
    rw [if_pos]
    rcases hrange with h | h
    · simp [h]
    · simp [h]
  · intro a ha h16 h100
    rw [handle_age, ha]
    simp only
    rw [if_neg]
    simp only [Bool.or_eq_true, decide_eq_true_eq, not_or, not_lt]
    omega

/-- Witness for C8: a concrete in-range age is stored and the machine moves on;
a concrete out-of-range age re-prompts with the range message. -/
theorem C8_age_validation_witness :
    handle_age "25" emptyRespondent =
      ⟨{ emptyRespondent with age := some 25 }, .REGISTRATION_OCCUPATION,
        "Выберите ваш текущий статус:"⟩ ∧
    handle_age "15" emptyRespondent =
      ⟨emptyRespondent, .REGISTRATION_AGE,
        "Пожалуйста, укажите корректный возраст (от 16 до 100 лет):"⟩ :=
  ⟨(C8_age_validation "25" emptyRespondent).2.2.2 25 (by decide) (by decide) (by decide),
   (C8_age_validation "15" emptyRespondent).2.1 15 (by decide) (Or.inl (by decide))⟩

/-- Counterexample to claim C9 as stated: the gender handler accepts any input
that merely CONTAINS one of the two labels as a substring — here an input that
equals neither label is accepted and advances. -/
theorem C9_counterexample :
    handle_gender "X👨 Мужской X" emptyRespondent =
      ⟨{ emptyRespondent with gender := some "male" }, .REGISTRATION_AGE,
        "Укажите ваш возраст (полных лет):"⟩ ∧
    "X👨 Мужской X" ≠ "👨 Мужской" ∧
    "X👨 Мужской X" ≠ "👩 Женский" := by
  refine ⟨by decide, by decide, by decide⟩

/-- Claim C9 (amended): any input containing the male label as a substring sets
gender male (checked first); otherwise any input containing the female label
sets gender female; each advances to the age question; every other input
re-prompts in the same state with no profile write; the keyboard offers exactly
the two labels. -/
theorem C9_gender_labels (t : String) (r : Respondent) :
    (strContains t "👨 Мужской" = true →
      handle_gender t r =
        ⟨{ r with gender := some "male" }, .REGISTRATION_AGE,
          "Укажите ваш возраст (полных лет):"⟩) ∧
    (strContains t "👨 Мужской" = false → strContains t "👩 Женский" = true →
      handle_gender t r =
        ⟨{ r with gender := some "female" }, .REGISTRATION_AGE,
          "Укажите ваш возраст (полных лет):"⟩) ∧
    (strContains t "👨 Мужской" = false → strContains t "👩 Женский" = false →
      handle_gender t r =
        ⟨r, .REGISTRATION_GENDER, "Пожалуйста, выберите пол, используя кнопки ниже:"⟩) ∧
    get_gender_keyboard = [["👨 Мужской", "👩 Женский"]] := by
  refine ⟨?_, ?_, ?_, rfl⟩
  · intro hm
    rw [handle_gender, if_pos hm]
  · intro hm hf
    rw [handle_gender, if_neg (by simp [hm]), if_pos hf]
  · intro hm hf
    rw [handle_gender, if_neg (by simp [hm]), if_neg (by simp [hf])]

/-- Witness for the amended C9 at the two exact labels. -/
theorem C9_gender_labels_witness :
    handle_gender "👨 Мужской" emptyRespondent =
      ⟨{ emptyRespondent with gender := some "male" }, .REGISTRATION_AGE,
        "Укажите ваш возраст (полных лет):"⟩ ∧
    handle_gender "👩 Женский" emptyRespondent =
      ⟨{ emptyRespondent with gender := some "female" }, .REGISTRATION_AGE,
        "Укажите ваш возраст (полных лет):"⟩ :=
  ⟨(C9_gender_labels "👨 Мужской" emptyRespondent).1 (by decide),
   (C9_gender_labels "👩 Женский" emptyRespondent).2.1 (by decide) (by decide)⟩

theorem get_set_session (ss : List (Nat × SurveySession)) (id : Nat)
    (s s' : SurveySession) (h : get_session ss id = some s) :
    get_session (set_session ss id s') id = some s' := by
  induction ss with
  | nil => simp [get_session] at h
  | cons hd t ih =>
    obtain ⟨k, v⟩ := hd
    by_cases hk : k = id
    · simp [get_session, set_session, hk]
    · rw [get_session, if_neg (by simpa using hk)] at h
      rw [set_session, if_neg (by simpa using hk), get_session,
        if_neg (by simpa using hk)]
      exact ih h

/-- A concrete completed session, for the C10 witness. -/
def sC10 : SurveySession :=
  { survey := [qC1w], status := .completed, current_question := some qC1w,
    started_at := 0, completed_at := some 3 }

/-- A concrete bot state whose conversation context still holds the completed
session's id, for the C10 witness. -/
def bC10 : BotState :=
  { user_data_session_id := some 1, sessions := [(1, sC10)],
    responses := [⟨qC1w, .text_answer "привет"⟩] }

/-- Claim C10: `cancel` sets the status of whichever session id remains in the
conversation context to abandoned unconditionally (whatever its current
status, including completed), leaves every other session field and all
persisted responses unchanged, and the answer handlers never clear the
context's session id — so a cancel after completion overwrites completed with
abandoned. -/
theorem C10_cancel_overwrites (b : BotState) (id : Nat) (s : SurveySession)
    (now : Nat) (st : ConversationState) (m : Msg)
    (h1 : b.user_data_session_id = some id)
    (h2 : get_session b.sessions id = some s) :
    cancel b =
      some ({ b with
              sessions := set_session b.sessions id { s with status := .abandoned } },
        .MAIN_MENU) ∧
    get_session (set_session b.sessions id { s with status := .abandoned }) id =
      some { s with status := .abandoned } ∧
    ({ s with status := .abandoned }).current_question = s.current_question ∧
    ({ s with status := .abandoned }).started_at = s.started_at ∧
    ({ s with status := .abandoned }).completed_at = s.completed_at ∧
    ((cancel b).map (fun p => p.1.responses) = some b.responses) ∧
    (∀ b' st', bot_survey_step now st m b = some (b', st') →
      b'.user_data_session_id = b.user_data_session_id) := by
  have hcan : cancel b =
      some ({ b with
              sessions := set_session b.sessions id { s with status := .abandoned } },
        .MAIN_MENU) := by
    rw [cancel, h1]
    simp only [h2]
    rfl
  refine ⟨hcan, get_set_session b.sessions id s _ h2, rfl, rfl, rfl, ?_, ?_⟩
  · rw [hcan]
    rfl
  · intro b' st' hstep
    rw [bot_survey_step, h1] at hstep
    simp only [h2] at hstep
    obtain ⟨hr, hhr, hb'⟩ := Option.map_eq_some'.mp hstep
    injection hb' with hb1 hb2
    subst hb1
    simp [h1]

/-- Witness for C10: cancelling after the session completed flips its stored
status from completed to abandoned. -/
theorem C10_cancel_overwrites_witness :
    sC10.status = .completed ∧
    cancel bC10 =
      some ({ bC10 with
              sessions := set_session bC10.sessions 1 { sC10 with status := .abandoned } },
        .MAIN_MENU) ∧
    get_session (set_session bC10.sessions 1 { sC10 with status := .abandoned }) 1 =
      some { sC10 with status := .abandoned } :=
  ⟨rfl,
   (C10_cancel_overwrites bC10 1 sC10 0 .MAIN_MENU ⟨none, none⟩ rfl rfl).1,
   (C10_cancel_overwrites bC10 1 sC10 0 .MAIN_MENU ⟨none, none⟩ rfl rfl).2.1⟩

end SurveyBot
